import Mathlib

/-!
Verification of the geometry/pricing engine of the rib-wall configurator
(`src/engine/ribEngine.ts`, `src/engine/types.ts`).

JS `number` values are embedded as `ℝ`; the integer-valued configuration
fields (`count`, `waveType`, `controlPoints`, `displayResolution`) are
embedded as `ℕ`, and the results of `Math.floor` / `Math.ceil` /
`Math.round` as `ℤ` via `Int.floor` / `Int.ceil`.  String formatting of
numbers (`toFixed`) has no computable counterpart on `ℝ`, so the
serializing functions take the formatter as an explicit parameter.
-/

namespace RibMaker

/-- A 2D point (depth `x`, position along the run `y`); embeds
`THREE.Vector2` and the `{x, y}` records stored in `RibProfile`. -/
structure Pt where
  x : ℝ
  y : ℝ

/-- The `RibParams` interface of `src/engine/types.ts`. -/
structure RibParams where
  height : ℝ
  minDepth : ℝ
  maxDepth : ℝ
  thickness : ℝ
  count : ℕ
  spacing : ℝ
  frequency : ℝ
  phase : ℝ
  waveType : ℕ
  controlPoints : ℕ
  displayResolution : ℕ
  color : String
  ceilingRun : ℝ

/-- The `InstallationMode` union type. -/
inductive InstallationMode where
  | wall
  | ceiling
  | both
deriving DecidableEq

/-- The `RibProfile` interface; the optional fields `ceilingProfile?` and
`ceilingRun?` are embedded as `Option`, `none` meaning the key is absent. -/
structure RibProfile where
  index : ℕ
  profile : List Pt
  controlPoints : List Pt
  height : ℝ
  thickness : ℝ
  ceilingProfile : Option (List Pt) := none
  ceilingRun : Option ℝ := none

-- Constants from `src/engine/types.ts`.

/-- Constant `SCALE = 0.1` (1 inch = 0.1 units in 3D). -/
def SCALE : ℝ := 0.1

/-- Constant `PRICE_PER_SF = 45`. -/
def PRICE_PER_SF : ℝ := 45

/-- Constant `PRICE_LED_PER_LF = 30`. -/
def PRICE_LED_PER_LF : ℝ := 30

/-- Constant `SHEET_WIDTH = 48` inches. -/
def SHEET_WIDTH : ℝ := 48

/-- Constant `SHEET_HEIGHT = 144` inches. -/
def SHEET_HEIGHT : ℝ := 144

/-- Constant `SHEET_PRICE = 1800` dollars per sheet. -/
def SHEET_PRICE : ℝ := 1800

/-- The `DEFAULT_PARAMS` constant of `App.tsx`. -/
def DEFAULT_PARAMS : RibParams :=
  { height := 144, minDepth := 4, maxDepth := 12, thickness := 0.5, count := 40,
    spacing := 7, frequency := 2, phase := 0.25, waveType := 0, controlPoints := 20,
    displayResolution := 200, color := "#ffffff", ceilingRun := 96 }

-- ── Pricing calculations (`calculatePricing`) ──

/-- The record returned by `calculatePricing`. -/
structure PricingResult where
  totalWidth : ℝ
  ribLength : ℝ
  totalSurfaceAreaSqFt : ℝ
  ribPrice : ℝ
  ledLinearFeet : ℝ
  ledPrice : ℝ
  totalPrice : ℝ
  ribsPerSheet : ℤ
  sectionsPerRib : ℤ
  sheetsNeeded : ℤ
  sheetTotalCost : ℝ
  wallCoverage : String

/-- Embeds `calculatePricing(params, installationMode, ledEnabled)`.  The
`toFixed(1)` formatter used to build the `wallCoverage` display string is
passed in as `fmt1` (it is a JS string-formatting primitive with no
counterpart on `ℝ`); all numeric fields are independent of it. -/
noncomputable def calculatePricing (fmt1 : ℝ → String) (params : RibParams)
    (installationMode : InstallationMode) (ledEnabled : Bool) : PricingResult :=
  let totalWidth : ℝ := ((params.count : ℝ) - 1) * params.spacing
  let ribLength : ℝ :=
    if installationMode = InstallationMode.both then params.height + params.ceilingRun
    else params.height
  let surfaceAreaPerRibSqIn := ribLength * params.maxDepth
  let surfaceAreaPerRibSqFt := surfaceAreaPerRibSqIn / 144
  let totalSurfaceAreaSqFt := surfaceAreaPerRibSqFt * (params.count : ℝ)
  let ribPrice := totalSurfaceAreaSqFt * PRICE_PER_SF
  let ledLinearFeet := (ribLength / 12) * (params.count : ℝ)
  let ledPrice := ledLinearFeet * PRICE_LED_PER_LF
  let totalPrice := ribPrice + (if ledEnabled then ledPrice else 0)
  let ribsPerSheet : ℤ := ⌊SHEET_WIDTH / params.maxDepth⌋
  let sectionsPerRib : ℤ := ⌈ribLength / SHEET_HEIGHT⌉
  let totalSlots : ℤ := (params.count : ℤ) * sectionsPerRib
  let sheetsNeeded : ℤ := ⌈(totalSlots : ℝ) / ((max ribsPerSheet 1 : ℤ) : ℝ)⌉
  let sheetTotalCost : ℝ := (sheetsNeeded : ℝ) * SHEET_PRICE
  let wallCoverage : String :=
    if installationMode = InstallationMode.both then
      fmt1 (totalWidth / 12) ++ "\x27 wide x " ++ fmt1 (params.height / 12) ++
        "\x27 wall + " ++ fmt1 (params.ceilingRun / 12) ++ "\x27 ceiling"
    else
      fmt1 (totalWidth / 12) ++ "\x27 wide x " ++ fmt1 (params.height / 12) ++ "\x27 tall"
  { totalWidth := totalWidth, ribLength := ribLength,
    totalSurfaceAreaSqFt := totalSurfaceAreaSqFt, ribPrice := ribPrice,
    ledLinearFeet := ledLinearFeet, ledPrice := ledPrice, totalPrice := totalPrice,
    ribsPerSheet := ribsPerSheet, sectionsPerRib := sectionsPerRib,
    sheetsNeeded := sheetsNeeded, sheetTotalCost := sheetTotalCost,
    wallCoverage := wallCoverage }

/-- A concrete stand-in formatter for evaluating `calculatePricing` at
specific inputs (the numeric pricing fields do not depend on it). -/
def constFmt : ℝ → String := fun _ => ""

/-- C7: for every `RibParams` and `installationMode`, `calculatePricing`
returns `ribsPerSheet = ⌊48 / maxDepth⌋`, `sectionsPerRib = ⌈ribLength / 144⌉`
where `ribLength = height` (or `height + ceilingRun` when the mode is `both`),
`sheetsNeeded = ⌈count * sectionsPerRib / max ribsPerSheet 1⌉`, and
`sheetTotalCost = sheetsNeeded * 1800`. -/
theorem calculatePricing_sheet_formulas (fmt1 : ℝ → String) (p : RibParams)
    (mode : InstallationMode) (led : Bool) :
    (calculatePricing fmt1 p mode led).ribsPerSheet = ⌊(48 : ℝ) / p.maxDepth⌋ ∧
    (calculatePricing fmt1 p mode led).sectionsPerRib =
      ⌈(if mode = InstallationMode.both then p.height + p.ceilingRun else p.height) / 144⌉ ∧
    (calculatePricing fmt1 p mode led).sheetsNeeded =
      ⌈(((p.count : ℤ) *
          ⌈(if mode = InstallationMode.both then p.height + p.ceilingRun else p.height) / 144⌉ : ℤ) : ℝ) /
        ((max ⌊(48 : ℝ) / p.maxDepth⌋ 1 : ℤ) : ℝ)⌉ ∧
    (calculatePricing fmt1 p mode led).sheetTotalCost =
      ((⌈(((p.count : ℤ) *
          ⌈(if mode = InstallationMode.both then p.height + p.ceilingRun else p.height) / 144⌉ : ℤ) : ℝ) /
        ((max ⌊(48 : ℝ) / p.maxDepth⌋ 1 : ℤ) : ℝ)⌉ : ℤ) : ℝ) * 1800 :=
  ⟨rfl, rfl, rfl, rfl⟩

/-- C4: with `count = 40`, `height = 144`, `maxDepth = 12`, mode `wall` and
LED enabled, `calculatePricing` returns `ribPrice = 21600`,
`ledPrice = 14400` and `totalPrice = 36000` dollars. -/
theorem calculatePricing_budget_scenario (fmt1 : ℝ → String) (p : RibParams)
    (hcount : p.count = 40) (hheight : p.height = 144) (hdepth : p.maxDepth = 12) :
    (calculatePricing fmt1 p InstallationMode.wall true).ribPrice = 21600 ∧
    (calculatePricing fmt1 p InstallationMode.wall true).ledPrice = 14400 ∧
    (calculatePricing fmt1 p InstallationMode.wall true).totalPrice = 36000 := by
  have hne : InstallationMode.wall ≠ InstallationMode.both := by decide
  simp only [calculatePricing, PRICE_PER_SF, PRICE_LED_PER_LF, hcount, hheight, hdepth,
    if_neg hne]
  norm_num

/-- Witness for `calculatePricing_budget_scenario` at the default app
parameters. -/
theorem calculatePricing_budget_scenario_witness :
    DEFAULT_PARAMS.count = 40 ∧ DEFAULT_PARAMS.height = 144 ∧
    DEFAULT_PARAMS.maxDepth = 12 ∧
    ((calculatePricing constFmt DEFAULT_PARAMS InstallationMode.wall true).ribPrice = 21600 ∧
     (calculatePricing constFmt DEFAULT_PARAMS InstallationMode.wall true).ledPrice = 14400 ∧
     (calculatePricing constFmt DEFAULT_PARAMS InstallationMode.wall true).totalPrice = 36000) :=
  ⟨rfl, rfl, rfl,
   calculatePricing_budget_scenario constFmt DEFAULT_PARAMS rfl rfl rfl⟩

/-- Parameters with `minDepth > maxDepth`, chosen so that both depth values
give the same `⌊48 / depth⌋`, and `count = 0` so that every area/price figure
degenerates to `0`. -/
noncomputable def swapProbeParams : RibParams :=
  { DEFAULT_PARAMS with minDepth := 19 / 2, maxDepth := 9, count := 0 }

/-- C10 counterexample: `calculatePricing` on `swapProbeParams` (with
`minDepth = 9.5 ≠ maxDepth = 9`) returns the same result as on the
depth-swapped parameters, so its output does not differ "whenever
`minDepth ≠ maxDepth`". -/
theorem calculatePricing_swap_counterexample :
    swapProbeParams.minDepth ≠ swapProbeParams.maxDepth ∧
    calculatePricing constFmt
        { swapProbeParams with minDepth := swapProbeParams.maxDepth,
                               maxDepth := swapProbeParams.minDepth }
        InstallationMode.wall true
      = calculatePricing constFmt swapProbeParams InstallationMode.wall true := by
  constructor
  · norm_num [swapProbeParams, DEFAULT_PARAMS]
  · simp only [calculatePricing, swapProbeParams, DEFAULT_PARAMS, constFmt,
      PRICE_PER_SF, PRICE_LED_PER_LF, SHEET_WIDTH, SHEET_HEIGHT, SHEET_PRICE,
      PricingResult.mk.injEq]
    norm_num

/-- C10 (amended): `calculatePricing` draws its surface-area, price and sheet
figures from the `maxDepth` field as given (no reordering of
`minDepth`/`maxDepth`), so it is not invariant under swapping the two fields:
whenever `minDepth ≠ maxDepth`, `count ≠ 0` and the rib length is nonzero,
the swapped-params result differs (already in `ribPrice`). -/
theorem calculatePricing_not_swap_invariant (fmt1 : ℝ → String) (p : RibParams)
    (mode : InstallationMode) (led : Bool)
    (hmm : p.minDepth ≠ p.maxDepth) (hcount : p.count ≠ 0)
    (hlen : (if mode = InstallationMode.both then p.height + p.ceilingRun else p.height) ≠ 0) :
    calculatePricing fmt1 { p with minDepth := p.maxDepth, maxDepth := p.minDepth } mode led
      ≠ calculatePricing fmt1 p mode led := by
  intro h
  have hrib := congrArg PricingResult.ribPrice h
  simp only [calculatePricing, PRICE_PER_SF] at hrib
  set L : ℝ := if mode = InstallationMode.both then p.height + p.ceilingRun else p.height with hLdef
  have hc : ((p.count : ℝ)) ≠ 0 := Nat.cast_ne_zero.mpr hcount
  have h0 : (p.minDepth - p.maxDepth) * (L * (p.count : ℝ) * 45 / 144) = 0 := by
    have hfact : L * p.minDepth / 144 * (p.count : ℝ) * 45
               - L * p.maxDepth / 144 * (p.count : ℝ) * 45
               = (p.minDepth - p.maxDepth) * (L * (p.count : ℝ) * 45 / 144) := by ring
    rw [← hfact, hrib, sub_self]
  rcases mul_eq_zero.mp h0 with h1 | h2
  · exact hmm (sub_eq_zero.mp h1)
  · have h2' : L * (p.count : ℝ) * 45 = 0 := by
      have h144 : (144 : ℝ) ≠ 0 := by norm_num
      exact (div_eq_zero_iff.mp h2).resolve_right h144
    rcases mul_eq_zero.mp h2' with h3 | h45
    · rcases mul_eq_zero.mp h3 with h4 | h5
      · exact hlen h4
      · exact hc h5
    · norm_num at h45

/-- Witness for `calculatePricing_not_swap_invariant` at the default app
parameters in `wall` mode. -/
theorem calculatePricing_not_swap_invariant_witness :
    DEFAULT_PARAMS.minDepth ≠ DEFAULT_PARAMS.maxDepth ∧
    DEFAULT_PARAMS.count ≠ 0 ∧
    (if InstallationMode.wall = InstallationMode.both
       then DEFAULT_PARAMS.height + DEFAULT_PARAMS.ceilingRun
       else DEFAULT_PARAMS.height) ≠ 0 ∧
    calculatePricing constFmt
        { DEFAULT_PARAMS with minDepth := DEFAULT_PARAMS.maxDepth,
                              maxDepth := DEFAULT_PARAMS.minDepth }
        InstallationMode.wall false
      ≠ calculatePricing constFmt DEFAULT_PARAMS InstallationMode.wall false :=
  ⟨by norm_num [DEFAULT_PARAMS], by norm_num [DEFAULT_PARAMS],
   by rw [if_neg (by decide)]; norm_num [DEFAULT_PARAMS],
   calculatePricing_not_swap_invariant constFmt DEFAULT_PARAMS
     InstallationMode.wall false (by norm_num [DEFAULT_PARAMS])
     (by norm_num [DEFAULT_PARAMS])
     (by rw [if_neg (by decide)]; norm_num [DEFAULT_PARAMS])⟩

-- ── Image sampling (`sampleImageBrightness`) ──

/-- A decoded raster, embedding the module-level `imageData`/`imageCanvas`
globals: pixel dimensions plus the flat RGBA byte array (`data i` is the
`i`-th byte, a value in `0..255`). -/
structure ImageData where
  width : ℕ
  height : ℕ
  data : ℕ → ℝ

/-- JS truncation toward zero, as performed on the left operand by the JS
remainder operator. -/
noncomputable def jsTrunc (x : ℝ) : ℤ := if 0 ≤ x then ⌊x⌋ else ⌈x⌉

/-- The JS remainder operator `x % y` for finite operands and `y ≠ 0`
(the engine only uses `y = 1`). -/
noncomputable def jsMod (x y : ℝ) : ℝ := x - y * (jsTrunc (x / y) : ℝ)

/-- Embeds `sampleImageBrightness(u, v, imageScale)`; the module-level image state
is passed explicitly as `img` (`none` = no image loaded, the 0.5 fallback). -/
noncomputable def sampleImageBrightness (img : Option ImageData)
    (u v imageScale : ℝ) : ℝ :=
  match img with
  | none => 0.5
  | some imageData =>
    let su0 := jsMod (u / imageScale) 1
    let su := if su0 < 0 then su0 + 1 else su0
    let sv0 := jsMod (v / imageScale) 1
    let sv := if sv0 < 0 then sv0 + 1 else sv0
    let px : ℤ := ⌊su * ((imageData.width : ℝ) - 1)⌋
    let py : ℤ := ⌊(1 - sv) * ((imageData.height : ℝ) - 1)⌋
    let idx : ℕ := ((py * (imageData.width : ℤ) + px) * 4).toNat
    let r := imageData.data idx
    let g := imageData.data (idx + 1)
    let b := imageData.data (idx + 2)
    (0.299 * r + 0.587 * g + 0.114 * b) / 255

/-- The `% 1` then add-1-if-negative wrap in the sampler is exactly the
floored fractional part. -/
theorem jsWrap_eq_fract (x : ℝ) :
    (if jsMod x 1 < 0 then jsMod x 1 + 1 else jsMod x 1) = Int.fract x := by
  rcases le_or_lt 0 x with hx | hx
  · have hm : jsMod x 1 = Int.fract x := by
      unfold jsMod jsTrunc
      rw [div_one, if_pos hx, one_mul]
      exact Int.self_sub_floor x
    rw [hm, if_neg (not_lt.mpr (Int.fract_nonneg x))]
  · have htr : jsTrunc x = ⌈x⌉ := by
      simp [jsTrunc, if_neg (not_le.mpr hx)]
    have hm : jsMod x 1 = x - (⌈x⌉ : ℝ) := by simp [jsMod, htr]
    rcases eq_or_lt_of_le (Int.le_ceil x) with hceil | hceil
    · have hz : jsMod x 1 = 0 := by rw [hm, ← hceil]; ring
      have hfr : Int.fract x = 0 := by
        rw [hceil]
        exact Int.fract_intCast _
      rw [hz, hfr, if_neg (lt_irrefl 0)]
    · have hneg : jsMod x 1 < 0 := by rw [hm]; linarith
      rw [if_pos hneg, hm]
      have hfl : (⌊x⌋ : ℤ) = ⌈x⌉ - 1 := by
        have h1 : ((⌈x⌉ : ℤ) : ℝ) - 1 ≤ x := by
          have := Int.ceil_lt_add_one x
          linarith
        have h2 : x < ((⌈x⌉ : ℤ) : ℝ) := hceil
        rw [Int.floor_eq_iff]
        constructor
        · push_cast; linarith
        · push_cast; linarith
      rw [Int.fract, hfl]
      push_cast
      ring

/-- C5 counterexample: a 5×1 image whose first pixel column is black and the
rest white.  With `imageScale = 2`, sampling at `u + 1/imageScale = 1/2`
lands on a different pixel than sampling at `u = 0`, so the sampler is not
`1/imageScale`-periodic in `u`. -/
noncomputable def testImage : ImageData :=
  { width := 5, height := 1, data := fun idx => if idx < 4 then 0 else 255 }

/-- C5 is false as stated: with `testImage` loaded and `imageScale = 2`,
`sampleImageBrightness (0 + 1/2) 0 2 ≠ sampleImageBrightness 0 0 2`. -/
theorem sampleImageBrightness_not_inv_scale_periodic :
    sampleImageBrightness (some testImage) (0 + 1 / 2) 0 2
      ≠ sampleImageBrightness (some testImage) 0 0 2 := by
  have h1 : sampleImageBrightness (some testImage) (0 + 1 / 2) 0 2 = 1 := by
    simp only [sampleImageBrightness, testImage, jsMod, jsTrunc]
    norm_num [show Int.toNat 4 = 4 from rfl]
  have h2 : sampleImageBrightness (some testImage) 0 0 2 = 0 := by
    simp only [sampleImageBrightness, testImage, jsMod, jsTrunc]
    norm_num [show Int.toNat 0 = 0 from rfl]
  rw [h1, h2]
  norm_num

/-- C5 (amended): the sampler tiles with period `imageScale` (not
`1/imageScale`) along the `u` axis: for every `imageScale ≠ 0`,
`sample(u + imageScale, v, imageScale) = sample(u, v, imageScale)`. -/
theorem sampleImageBrightness_periodic (img : Option ImageData)
    (u v imageScale : ℝ) (hs : imageScale ≠ 0) :
    sampleImageBrightness img (u + imageScale) v imageScale
      = sampleImageBrightness img u v imageScale := by
  cases img with
  | none => rfl
  | some imageData =>
    have hdiv : (u + imageScale) / imageScale = u / imageScale + 1 := by
      field_simp
    simp only [sampleImageBrightness, hdiv, jsWrap_eq_fract, Int.fract_add_one]

/-- Witness for `sampleImageBrightness_periodic` with the test image,
`u = 0`, `v = 0`, `imageScale = 2`. -/
theorem sampleImageBrightness_periodic_witness :
    (2 : ℝ) ≠ 0 ∧
    sampleImageBrightness (some testImage) (0 + 2) 0 2
      = sampleImageBrightness (some testImage) 0 0 2 :=
  ⟨by norm_num, sampleImageBrightness_periodic (some testImage) 0 0 2 (by norm_num)⟩

-- ── Wave functions (`waveFunction`) ──

/-- Embeds `waveFunction(t, frequency, waveType, phaseShift)`; the `switch` default
falls back to plain sine. -/
noncomputable def waveFunction (t frequency : ℝ) (waveType : ℕ)
    (phaseShift : ℝ) : ℝ :=
  let angle := t * frequency * Real.pi * 2 + phaseShift
  match waveType with
  | 0 => Real.sin angle
  | 1 => Real.sin angle * |Real.sin angle|
  | 2 => Real.arcsin (Real.sin angle) / (Real.pi / 2)
  | _ => Real.sin angle

-- ── Control point generation ──

/-- Embeds `Math.round` (round half up): `⌊x + 1/2⌋`. -/
noncomputable def jsRound (x : ℝ) : ℤ := ⌊x + 1 / 2⌋

/-- Embeds `generateControlPoints(params, ribIndex, imageScale)`; the module-level
image state is the explicit `img` argument (its presence selects the
image-driven depth source, exactly like the `if (imageData)` test). -/
noncomputable def generateControlPoints (params : RibParams) (ribIndex : ℕ)
    (imageScale : ℝ) (img : Option ImageData) : List Pt :=
  let depthRange := params.maxDepth - params.minDepth
  let phaseShift := (ribIndex : ℝ) * params.phase * Real.pi * 2
  (List.range params.controlPoints).map (fun (i : ℕ) =>
    let t := (i : ℝ) / ((params.controlPoints : ℝ) - 1)
    let y := t * params.height
    let depth : ℝ :=
      match img with
      | some _ =>
        let u : ℝ := if params.count > 1
          then (ribIndex : ℝ) / ((params.count : ℝ) - 1) else 0.5
        let brightness := sampleImageBrightness img u t imageScale
        params.minDepth + brightness * depthRange
      | none =>
        let wave := waveFunction t params.frequency params.waveType phaseShift
        params.minDepth + (wave + 1) / 2 * depthRange
    { x := depth, y := y })

/-- Embeds `generateControlPointsLPath(params, ribIndex, totalPath, imageScale)`:
the corner-aware variant; the point count scales with `totalPath / height`. -/
noncomputable def generateControlPointsLPath (params : RibParams)
    (ribIndex : ℕ) (totalPath imageScale : ℝ) (img : Option ImageData) :
    List Pt :=
  let depthRange := params.maxDepth - params.minDepth
  let phaseShift := (ribIndex : ℝ) * params.phase * Real.pi * 2
  let numPts : ℕ :=
    (jsRound ((params.controlPoints : ℝ) * (totalPath / params.height))).toNat
  (List.range numPts).map (fun (i : ℕ) =>
    let t := (i : ℝ) / ((numPts : ℝ) - 1)
    let y := t * totalPath
    let depth : ℝ :=
      match img with
      | some _ =>
        let u : ℝ := if params.count > 1
          then (ribIndex : ℝ) / ((params.count : ℝ) - 1) else 0.5
        let brightness := sampleImageBrightness img u t imageScale
        params.minDepth + brightness * depthRange
      | none =>
        let wave := waveFunction t params.frequency params.waveType phaseShift
        params.minDepth + (wave + 1) / 2 * depthRange
    { x := depth, y := y })

-- ── Spline evaluation ──

/-- Modelled from the spec: the uniform Catmull-Rom basis polynomial used by
the curve-interpolation primitive (`THREE.SplineCurve` of the three.js
dependency — library code, not part of this repository; §4.4 of the spec
calls for "standard uniform Catmull-Rom-equivalent behavior"). -/
def catmullRom (t p0 p1 p2 p3 : ℝ) : ℝ :=
  let v0 := (p2 - p0) * 0.5
  let v1 := (p3 - p1) * 0.5
  let t2 := t * t
  let t3 := t * t2
  (2 * p1 - 2 * p2 + v0 + v1) * t3 +
    (-3 * p1 + 3 * p2 - 2 * v0 - v1) * t2 + v0 * t + p1

/-- Modelled from the spec: `SplineCurve.getPoint(t)` — pick the spline
segment containing parameter `t` and evaluate the Catmull-Rom basis on its
four (clamped) neighbouring control points. -/
noncomputable def splineGetPoint (pts : List Pt) (t : ℝ) : Pt :=
  let n := pts.length
  let p : ℝ := ((n : ℝ) - 1) * t
  let intPoint : ℤ := ⌊p⌋
  let weight : ℝ := p - (intPoint : ℝ)
  let i : ℕ := intPoint.toNat
  let z : Pt := { x := 0, y := 0 }
  let p0 := pts.getD (if intPoint = 0 then i else i - 1) z
  let p1 := pts.getD i z
  let p2 := pts.getD (if (i : ℤ) > (n : ℤ) - 2 then n - 1 else i + 1) z
  let p3 := pts.getD (if (i : ℤ) > (n : ℤ) - 3 then n - 1 else i + 2) z
  { x := catmullRom weight p0.x p1.x p2.x p3.x,
    y := catmullRom weight p0.y p1.y p2.y p3.y }

/-- Embeds `evaluateSplineCurve(controlPoints, resolution)` =
`new THREE.SplineCurve(controlPoints).getPoints(resolution)`; `getPoints`
samples `d / resolution` for `d = 0 .. resolution`. -/
noncomputable def evaluateSplineCurve (controlPoints : List Pt)
    (resolution : ℕ) : List Pt :=
  (List.range (resolution + 1)).map
    (fun (d : ℕ) => splineGetPoint controlPoints ((d : ℝ) / (resolution : ℝ)))

theorem catmullRom_zero (p0 p1 p2 p3 : ℝ) : catmullRom 0 p0 p1 p2 p3 = p1 := by
  simp only [catmullRom]
  ring

theorem splineGetPoint_zero (pts : List Pt) :
    splineGetPoint pts 0 = pts.getD 0 { x := 0, y := 0 } := by
  simp only [splineGetPoint, mul_zero, Int.floor_zero, Int.cast_zero, sub_zero,
    Int.toNat_zero, if_pos rfl, sub_self]
  rw [catmullRom_zero, catmullRom_zero]

theorem splineGetPoint_one (pts : List Pt) (h2 : 2 ≤ pts.length) :
    splineGetPoint pts 1 = pts.getD (pts.length - 1) { x := 0, y := 0 } := by
  have hlen : ((pts.length : ℝ) - 1) * 1 = (((pts.length : ℤ) - 1 : ℤ) : ℝ) := by
    push_cast
    ring
  have hfloor : ⌊((pts.length : ℝ) - 1) * 1⌋ = (pts.length : ℤ) - 1 := by
    rw [hlen, Int.floor_intCast]
  have htoNat : ((pts.length : ℤ) - 1).toNat = pts.length - 1 := by omega
  simp only [splineGetPoint, hfloor, htoNat]
  rw [if_neg (by omega : ¬((pts.length : ℤ) - 1 = 0)),
    if_pos (by omega : ((pts.length - 1 : ℕ) : ℤ) > (pts.length : ℤ) - 2),
    if_pos (by omega : ((pts.length - 1 : ℕ) : ℤ) > (pts.length : ℤ) - 3)]
  have hw : ((pts.length : ℝ) - 1) * 1 - (((pts.length : ℤ) - 1 : ℤ) : ℝ) = 0 := by
    push_cast
    ring
  rw [hw, catmullRom_zero, catmullRom_zero]

theorem getLast?_eq_getD (l : List Pt) (h : l ≠ []) :
    l.getLast? = some (l.getD (l.length - 1) { x := 0, y := 0 }) := by
  induction l with
  | nil => exact absurd rfl h
  | cons a l ih =>
    cases l with
    | nil => rfl
    | cons b m =>
      rw [List.getLast?_cons_cons, ih (List.cons_ne_nil b m)]
      congr 1

/-- C8: for every control-point sequence with at least 2 points and every
resolution ≥ 1, `evaluateSplineCurve` returns exactly `resolution + 1`
points, the first equal to the first control point and the last equal to the
last control point. -/
theorem evaluateSplineCurve_endpoints (cps : List Pt) (res : ℕ)
    (h2 : 2 ≤ cps.length) (hres : 1 ≤ res) :
    (evaluateSplineCurve cps res).length = res + 1 ∧
    (evaluateSplineCurve cps res).head? = cps.head? ∧
    (evaluateSplineCurve cps res).getLast? = cps.getLast? := by
  have hne : cps ≠ [] := by
    intro h
    rw [h] at h2
    simp at h2
  have hcast : ((res : ℝ)) ≠ 0 := Nat.cast_ne_zero.mpr (by omega)
  refine ⟨by simp [evaluateSplineCurve], ?_, ?_⟩
  · rw [evaluateSplineCurve, List.range_succ_eq_map, List.map_cons,
      List.head?_cons]
    rw [show ((0 : ℕ) : ℝ) / (res : ℝ) = 0 by norm_num, splineGetPoint_zero]
    cases cps with
    | nil => exact absurd rfl hne
    | cons a l => rfl
  · rw [evaluateSplineCurve, List.range_succ, List.map_append, List.map_singleton,
      List.getLast?_concat]
    rw [show ((res : ℕ) : ℝ) / (res : ℝ) = 1 from div_self hcast,
      splineGetPoint_one cps h2, getLast?_eq_getD cps hne]

/-- Witness for `evaluateSplineCurve_endpoints` on a 2-point sequence at
resolution 2. -/
theorem evaluateSplineCurve_endpoints_witness :
    2 ≤ ([{ x := 0, y := 0 }, { x := 1, y := 2 }] : List Pt).length ∧
    1 ≤ 2 ∧
    ((evaluateSplineCurve [{ x := 0, y := 0 }, { x := 1, y := 2 }] 2).length = 2 + 1 ∧
     (evaluateSplineCurve [{ x := 0, y := 0 }, { x := 1, y := 2 }] 2).head?
       = ([{ x := 0, y := 0 }, { x := 1, y := 2 }] : List Pt).head? ∧
     (evaluateSplineCurve [{ x := 0, y := 0 }, { x := 1, y := 2 }] 2).getLast?
       = ([{ x := 0, y := 0 }, { x := 1, y := 2 }] : List Pt).getLast?) :=
  ⟨by norm_num, by norm_num,
   evaluateSplineCurve_endpoints [{ x := 0, y := 0 }, { x := 1, y := 2 }] 2
     (by norm_num) (by norm_num)⟩

-- ── Full rib generation (`generateRibProfiles`) ──

/-- The result record `{ ribProfiles, ceilingProfilesArr }`. -/
structure GenerateResult where
  ribProfiles : List RibProfile
  ceilingProfilesArr : List (List Pt)

/-- The `Math.min`/`Math.max` reordering `generateRibProfiles` applies to
`minDepth`/`maxDepth` before the generation loop (in the source this is an
in-place mutation of `params`, performed before any depth is computed). -/
def normalizeDepths (params : RibParams) : RibParams :=
  { params with minDepth := min params.minDepth params.maxDepth,
                maxDepth := max params.minDepth params.maxDepth }

/-- One iteration of the generation loop, on the already-normalized params
`p`: the profile record of the rib paired with the ceiling segment pushed onto
`ceilingProfilesArr` (`[]` outside `both` mode, where the source pushes
nothing). -/
noncomputable def generateRib (p : RibParams)
    (installationMode : InstallationMode) (imageScale : ℝ)
    (img : Option ImageData) (i : ℕ) : RibProfile × List Pt :=
  if installationMode = InstallationMode.both then
    let ceilingRun := p.ceilingRun
    let totalPath := p.height + ceilingRun
    let fullControlPoints := generateControlPointsLPath p i totalPath imageScale img
    let totalRes : ℕ :=
      (jsRound ((p.displayResolution : ℝ) * (totalPath / p.height))).toNat
    let fullProfile := evaluateSplineCurve fullControlPoints totalRes
    let splitIndex : ℕ :=
      (jsRound ((p.height / totalPath) * (fullProfile.length : ℝ))).toNat
    let profile := fullProfile.take (splitIndex + 1)
    let controlPts := fullControlPoints.filter (fun q => q.y ≤ p.height)
    let ceilSeg := (fullProfile.drop splitIndex).map
      (fun q => ({ x := q.x, y := q.y - p.height } : Pt))
    ({ index := i, profile := profile, controlPoints := controlPts,
       height := p.height, thickness := p.thickness }, ceilSeg)
  else
    let controlPts := generateControlPoints p i imageScale img
    let profile := evaluateSplineCurve controlPts p.displayResolution
    ({ index := i, profile := profile, controlPoints := controlPts,
       height := p.height, thickness := p.thickness }, [])

/-- Embeds `generateRibProfiles(params, installationMode, imageScale)`: normalize
`minDepth`/`maxDepth`, then generate one profile record per rib index
`0 .. count-1`; in `both` mode the per-rib ceiling segments are collected in
the parallel `ceilingProfilesArr`. -/
noncomputable def generateRibProfiles (params : RibParams)
    (installationMode : InstallationMode) (imageScale : ℝ)
    (img : Option ImageData) : GenerateResult :=
  let p := normalizeDepths params
  { ribProfiles := (List.range p.count).map
      (fun i => (generateRib p installationMode imageScale img i).1),
    ceilingProfilesArr :=
      if installationMode = InstallationMode.both then
        (List.range p.count).map
          (fun i => (generateRib p installationMode imageScale img i).2)
      else [] }

theorem generateRib_index (p : RibParams) (mode : InstallationMode)
    (s : ℝ) (img : Option ImageData) (i : ℕ) :
    ((generateRib p mode s img i).1).index = i := by
  unfold generateRib
  split <;> rfl

theorem generateRib_ceilingProfile (p : RibParams) (mode : InstallationMode)
    (s : ℝ) (img : Option ImageData) (i : ℕ) :
    ((generateRib p mode s img i).1).ceilingProfile = none := by
  unfold generateRib
  split <;> rfl

theorem generateRib_ceilingRun (p : RibParams) (mode : InstallationMode)
    (s : ℝ) (img : Option ImageData) (i : ℕ) :
    ((generateRib p mode s img i).1).ceilingRun = none := by
  unfold generateRib
  split <;> rfl

/-- C1: for every `RibParams` with `count ≥ 1` (and every mode and image
scale), `generateRibProfiles` returns exactly `count` profile records whose
`index` fields are `0, 1, …, count-1` in that order, each exactly once. -/
theorem generateRibProfiles_indices (params : RibParams)
    (mode : InstallationMode) (s : ℝ) (img : Option ImageData)
    (_hcount : 1 ≤ params.count) :
    (generateRibProfiles params mode s img).ribProfiles.length = params.count ∧
    (generateRibProfiles params mode s img).ribProfiles.map (fun r => r.index)
      = List.range params.count := by
  constructor
  · simp [generateRibProfiles, normalizeDepths]
  · apply List.ext_getElem
    · simp [generateRibProfiles, normalizeDepths]
    · intro n h1 h2
      simp [generateRibProfiles, generateRib_index]

/-- Witness for `generateRibProfiles_indices` at the default app
parameters. -/
theorem generateRibProfiles_indices_witness :
    1 ≤ DEFAULT_PARAMS.count ∧
    ((generateRibProfiles DEFAULT_PARAMS InstallationMode.wall 1 none).ribProfiles.length
        = DEFAULT_PARAMS.count ∧
     (generateRibProfiles DEFAULT_PARAMS InstallationMode.wall 1 none).ribProfiles.map
        (fun r => r.index) = List.range DEFAULT_PARAMS.count) :=
  ⟨by norm_num [DEFAULT_PARAMS],
   generateRibProfiles_indices DEFAULT_PARAMS InstallationMode.wall 1 none
     (by norm_num [DEFAULT_PARAMS])⟩

/-- C3: `generateRibProfiles` reorders `minDepth`/`maxDepth` so that
`minDepth ≤ maxDepth` before any depth is computed, so calling it with the
two fields swapped produces an identical result. -/
theorem generateRibProfiles_swap_invariant (params : RibParams)
    (mode : InstallationMode) (s : ℝ) (img : Option ImageData) :
    generateRibProfiles
        { params with minDepth := params.maxDepth, maxDepth := params.minDepth }
        mode s img
      = generateRibProfiles params mode s img := by
  have hnorm :
      normalizeDepths
          { params with minDepth := params.maxDepth, maxDepth := params.minDepth }
        = normalizeDepths params := by
    simp [normalizeDepths, min_comm, max_comm]
  unfold generateRibProfiles
  rw [hnorm]

/-- Default parameters restricted to a single rib, for probing the shape of
one generated record. -/
def oneRibParams : RibParams := { DEFAULT_PARAMS with count := 1 }

/-- C2 is false as stated: in `both` mode the `RibProfile` records returned
by `generateRibProfiles` carry no `ceilingProfile`/`ceilingRun` fields —
the ceiling data is only returned in the separate `ceilingProfilesArr`
(downstream viewport code, not the generator, later attaches it to the
records). -/
theorem generateRibProfiles_records_lack_ceiling_fields :
    (generateRibProfiles oneRibParams InstallationMode.both 1 none).ribProfiles.map
        (fun r => (r.ceilingProfile, r.ceilingRun))
      = [(none, none)] := by
  simp only [generateRibProfiles, List.map_map,
    show (normalizeDepths oneRibParams).count = 1 from rfl,
    show List.range 1 = [0] from rfl, List.map_cons, List.map_nil,
    Function.comp_apply, generateRib_ceilingProfile, generateRib_ceilingRun]

/-- C2 (amended): in `both` mode, `generateRibProfiles` returns one ceiling
segment per rib (the dense ceiling-side slice, re-based by subtracting
`height`) in the separate `ceilingProfilesArr`, while the `RibProfile`
records themselves leave `ceilingProfile` and `ceilingRun` unset. -/
theorem generateRibProfiles_ceiling_in_parallel_array (params : RibParams)
    (s : ℝ) (img : Option ImageData) :
    (generateRibProfiles params InstallationMode.both s img).ceilingProfilesArr.length
      = params.count ∧
    (generateRibProfiles params InstallationMode.both s img).ribProfiles.map
        (fun r => (r.ceilingProfile, r.ceilingRun))
      = List.replicate params.count ((none, none) : Option (List Pt) × Option ℝ) := by
  constructor
  · simp [generateRibProfiles, normalizeDepths]
  · simp only [generateRibProfiles, normalizeDepths, List.map_map]
    rw [List.eq_replicate_iff]
    constructor
    · simp
    · intro x hx
      rcases List.mem_map.mp hx with ⟨i, _, hi⟩
      rw [← hi]
      simp [Function.comp, generateRib_ceilingProfile, generateRib_ceilingRun]

-- ── JS float partiality in the control-point loop (for claim C6) ──

/-- JS division with the non-finite results made explicit: `none` models
`NaN`/`±Infinity` (in the loop below the only occurrence is
`i / (controlPoints - 1)`, which is `0 / 0 = NaN` when `controlPoints = 1`).
JS arithmetic propagates these non-finite values through every subsequent
`+`, `*`, `sin`, …, which the `Option.map` lifting mirrors. -/
noncomputable def jsDiv (a b : ℝ) : Option ℝ := if b = 0 then none else some (a / b)

/-- Variant of `generateControlPoints` with the JS float behaviour at division
by zero tracked: each
generated point is a pair of optional coordinates `(depth?, y?)`, `none`
standing for a non-finite (NaN) JS value.  Apart from the `jsDiv` at `t`,
the body is the same computation as `generateControlPoints`. -/
noncomputable def generateControlPointsJS (params : RibParams) (ribIndex : ℕ)
    (imageScale : ℝ) (img : Option ImageData) : List (Option ℝ × Option ℝ) :=
  let depthRange := params.maxDepth - params.minDepth
  let phaseShift := (ribIndex : ℝ) * params.phase * Real.pi * 2
  (List.range params.controlPoints).map (fun (i : ℕ) =>
    let t? := jsDiv (i : ℝ) ((params.controlPoints : ℝ) - 1)
    let y? := t?.map (fun t => t * params.height)
    let depth? := t?.map (fun t =>
      match img with
      | some _ =>
        let u : ℝ := if params.count > 1
          then (ribIndex : ℝ) / ((params.count : ℝ) - 1) else 0.5
        params.minDepth + sampleImageBrightness img u t imageScale * depthRange
      | none =>
        params.minDepth +
          (waveFunction t params.frequency params.waveType phaseShift + 1) / 2 * depthRange)
    (depth?, y?))

/-- C6 fails on the code: at `controlPoints = 1` the generator does not clamp
or guard the division — JS computes `t = 0 / 0 = NaN` and the single
returned control point has both coordinates non-finite (`none`), not the
well-formed `t = 0` point the spec calls for. -/
theorem generateControlPointsJS_nan_at_one :
    generateControlPointsJS { DEFAULT_PARAMS with controlPoints := 1 } 0 1 none
      = [(none, none)] := by
  simp only [generateControlPointsJS,
    show ({ DEFAULT_PARAMS with controlPoints := 1 } : RibParams).controlPoints = 1
      from rfl,
    show List.range 1 = [0] from rfl, List.map_cons, List.map_nil]
  norm_num [jsDiv]

-- ── DXF export (`exportDXF`) ──

/-- The fixed HEADER + TABLES prologue and the opening of the ENTITIES
section of the DXF R12 document. -/
def dxfPrologue : String :=
  "0\nSECTION\n2\nHEADER\n" ++
  "9\n$ACADVER\n1\nAC1009\n" ++
  "9\n$INSUNITS\n70\n1\n" ++
  "0\nENDSEC\n" ++
  "0\nSECTION\n2\nTABLES\n" ++
  "0\nTABLE\n2\nLAYER\n70\n2\n" ++
  "0\nLAYER\n2\nCURVES\n70\n0\n62\n5\n6\nCONTINUOUS\n" ++
  "0\nLAYER\n2\nLINES\n70\n0\n62\n7\n6\nCONTINUOUS\n" ++
  "0\nENDTAB\n" ++
  "0\nENDSEC\n" ++
  "0\nSECTION\n2\nENTITIES\n"

/-- The four entity groups `exportDXF` emits for one rib: bottom edge LINE,
POLYLINE + VERTEX entries + SEQEND, top edge LINE, wall-side LINE.  The
source reads `profile[0]` and `profile[profile.length - 1]` unconditionally;
on an empty profile that is a `TypeError` in JS, modelled by the `Option`
bind on `head?`/`getLast?` (`none` = the export throws).  `fmt6` is the
`toFixed(6)` coordinate formatter. -/
noncomputable def dxfRibEntities (fmt6 : ℝ → String) (dxfSpacing height : ℝ)
    (ribIndex : ℕ) (rib : RibProfile) : Option String := do
  let offsetX := (ribIndex : ℝ) * dxfSpacing
  let profile := rib.profile
  let firstPoint ← profile.head?
  let lastPoint ← profile.getLast?
  let bottom :=
    "0\nLINE\n8\nLINES\n" ++
    "10\n" ++ fmt6 offsetX ++ "\n20\n0.0\n30\n0.0\n" ++
    "11\n" ++ fmt6 (offsetX + firstPoint.x) ++ "\n21\n" ++ fmt6 firstPoint.y ++
      "\n31\n0.0\n"
  let curveHeader := "0\nPOLYLINE\n8\nCURVES\n66\n1\n70\n4\n"
  let verts := String.join (profile.map (fun point =>
    "0\nVERTEX\n8\nCURVES\n" ++
    "10\n" ++ fmt6 (offsetX + point.x) ++ "\n20\n" ++ fmt6 point.y ++
      "\n30\n0.0\n70\n8\n"))
  let seqend := "0\nSEQEND\n8\nCURVES\n"
  let top :=
    "0\nLINE\n8\nLINES\n" ++
    "10\n" ++ fmt6 (offsetX + lastPoint.x) ++ "\n20\n" ++ fmt6 lastPoint.y ++
      "\n30\n0.0\n" ++
    "11\n" ++ fmt6 offsetX ++ "\n21\n" ++ fmt6 height ++ "\n31\n0.0\n"
  let left :=
    "0\nLINE\n8\nLINES\n" ++
    "10\n" ++ fmt6 offsetX ++ "\n20\n" ++ fmt6 height ++ "\n30\n0.0\n" ++
    "11\n" ++ fmt6 offsetX ++ "\n21\n0.0\n31\n0.0\n"
  pure (bottom ++ curveHeader ++ verts ++ seqend ++ top ++ left)

/-- Embeds `exportDXF(ribProfiles, params)`: prologue, then the per-rib entity
groups (each rib offset along x by `ribIndex * maxDepth * 1.2`), then the
ENDSEC/EOF trailer.  Returns `none` when the JS function would throw. -/
noncomputable def exportDXF (fmt6 : ℝ → String) (ribProfiles : List RibProfile)
    (params : RibParams) : Option String := do
  let height := params.height
  let maxDepth := params.maxDepth
  let dxfSpacing := maxDepth * 1.2
  let groups ← ribProfiles.enum.mapM
    (fun pr => dxfRibEntities fmt6 dxfSpacing height pr.1 pr.2)
  pure (dxfPrologue ++ String.join groups ++ "0\nENDSEC\n0\nEOF\n")

/-- A rib record whose evaluated profile is empty (fewer than 2 points). -/
def emptyProfileRib : RibProfile :=
  { index := 1, profile := [], controlPoints := [],
    height := 144, thickness := 0.5 }

/-- A well-formed rib record with a 2-point profile. -/
def twoPointRib : RibProfile :=
  { index := 0, profile := [{ x := 4, y := 0 }, { x := 4, y := 144 }],
    controlPoints := [{ x := 4, y := 0 }, { x := 4, y := 144 }],
    height := 144, thickness := 0.5 }

/-- C9 fails on the code: `exportDXF` reads `profile[0]` (and the last
point) unconditionally, so a rib with an empty profile makes the whole
export throw (`none`) — the degenerate rib is not skipped, and the
output of the well-formed rib is lost with it. -/
theorem exportDXF_throws_on_empty_profile :
    exportDXF constFmt [twoPointRib, emptyProfileRib] DEFAULT_PARAMS = none := by
  simp [exportDXF, dxfRibEntities, twoPointRib, emptyProfileRib, List.enum,
    List.mapM.loop]

end RibMaker
